import Mathlib

/-
Verification of the PrintVault material-database scraper pipeline.

This file gives a shallow embedding, in Lean 4, of the pure decision core of
the repository: the blacklist-based validation engine, the classification
heuristics, the Shopify endpoint derivation, the per-record mapping cores of
the extraction strategies, and the merge/reconciliation engine.  Python
strings are modelled as Lean String values (operated on through their
underlying character lists so that everything reduces in the kernel), Python
dicts holding product records are modelled as a structure with optional
fields, Python None/empty-string truthiness is modelled explicitly, and the
small fragment of regular-expression syntax used by the blacklists (literal
characters, word boundaries, dot, dot-star and whitespace-star) is given an
exact executable matcher.
-/

namespace PV

/-- Python str.lower, restricted to the ASCII mapping that Char.toLower
implements; every string the analysed code lowers is ASCII apart from a
single Japanese literal, which has no case. -/
def pyLower (s : String) : String := String.mk (s.data.map Char.toLower)

/-- Python sep.join(xs). -/
def pyJoin (sep : String) : List String → String
  | [] => ""
  | [x] => x
  | x :: y :: rest => x ++ sep ++ pyJoin sep (y :: rest)

/-- Substring test on character lists: pat occurs somewhere inside hay. -/
def listHasInfix (pat : List Char) : List Char → Bool
  | [] => pat.isPrefixOf []
  | c :: rest => pat.isPrefixOf (c :: rest) || listHasInfix pat rest

/-- Python membership test pat in s (substring containment). -/
def containsStr (s pat : String) : Bool := listHasInfix pat.data s.data

/-- Python s[:n] slicing (by code point). -/
def strTake (s : String) (n : Nat) : String := String.mk (s.data.take n)

/-- The part of s before the first occurrence of pat, or all of s when pat
does not occur: Python s.split(pat)[0] for a non-empty pat. -/
def listBefore (pat : List Char) : List Char → List Char
  | [] => []
  | x :: xs => if pat.isPrefixOf (x :: xs) then [] else x :: listBefore pat xs

def strBefore (s pat : String) : String := String.mk (listBefore pat.data s.data)

/-- Python s.rstrip of the slash character: drop every trailing slash. -/
def rstripSlash (s : String) : String :=
  String.mk ((s.data.reverse.dropWhile (fun c => c == '/')).reverse)

/-- Python truthiness of an optional string: None and the empty string are
falsy, every other string is truthy. -/
def truthy : Option String → Bool
  | none => false
  | some s => s != ""

/-- Python dict.get(key, default) where the first argument is the looked-up
value (none when the key is absent) and the second the default. -/
def getOrD (v d : Option String) : Option String :=
  match v with
  | some x => some x
  | none => d

/-! ## Regular-expression fragment

The four blacklists in src/scraper.py use only these constructs: literal
characters, word boundaries, the dot wildcard, dot-star and
whitespace-star.  The matcher below implements Python re.search for exactly
that fragment.  matchAt is written with an explicit fuel argument so that it
is structurally recursive and reduces inside the kernel; every recursive
call consumes either one pattern element or one text character, so a fuel of
pattern length + text length + 1 can never run out. -/

inductive RElem where
  | ch (c : Char)
  | dot
  | dotStar
  | wsStar
  | wb
deriving DecidableEq, Repr

/-- Python regex word character for the ASCII texts at hand. -/
def isWordChar (c : Char) : Bool := c.isAlphanum || c == '_'

/-- Python regex whitespace class. -/
def isSpaceChar (c : Char) : Bool :=
  c == ' ' || c == '\t' || c == '\n' || c == '\r' || c == '\x0b' || c == '\x0c'

/-- A word boundary holds between the previous character (none at the start
of the text) and the rest of the text. -/
def atBoundary (prev : Option Char) (rest : List Char) : Bool :=
  (match prev with | some c => isWordChar c | none => false)
    != (match rest with | c :: _ => isWordChar c | [] => false)

/-- Does the pattern match a prefix of s, given the character preceding s? -/
def matchAt : Nat → List RElem → Option Char → List Char → Bool
  | 0, _, _, _ => false
  | fuel + 1, pat, prev, s =>
    match pat with
    | [] => true
    | .ch c :: ps =>
      match s with
      | x :: xs => x == c && matchAt fuel ps (some x) xs
      | [] => false
    | .dot :: ps =>
      match s with
      | x :: xs => x != '\n' && matchAt fuel ps (some x) xs
      | [] => false
    | .dotStar :: ps =>
      matchAt fuel ps prev s ||
        (match s with
         | x :: xs => x != '\n' && matchAt fuel (.dotStar :: ps) (some x) xs
         | [] => false)
    | .wsStar :: ps =>
      matchAt fuel ps prev s ||
        (match s with
         | x :: xs => isSpaceChar x && matchAt fuel (.wsStar :: ps) (some x) xs
         | [] => false)
    | .wb :: ps => atBoundary prev s && matchAt fuel ps prev s

/-- Try the pattern at every start position. -/
def searchFrom (pat : List RElem) : Option Char → List Char → Bool
  | prev, [] => matchAt (pat.length + 1) pat prev []
  | prev, x :: xs =>
    matchAt (pat.length + (x :: xs).length + 1) pat prev (x :: xs) ||
      searchFrom pat (some x) xs

/-- Python re.search(pat, text) as a boolean, for the fragment above. -/
def research (pat : List RElem) (text : String) : Bool :=
  searchFrom pat none text.data

/-- A run of literal characters. -/
def lit (s : String) : List RElem := s.data.map RElem.ch

/-- A word-boundary-delimited literal. -/
def wbound (s : String) : List RElem := RElem.wb :: lit s ++ [RElem.wb]

/-! ## The four blacklists of src/scraper.py (lines 49-84), in source order -/

def FILAMENT_BLACKLIST : List (List RElem) := [
  wbound "filament", wbound "pla", wbound "petg", wbound "pet-cf", wbound "tpu",
  wbound "peba", wbound "pa-cf", wbound "nylon", wbound "asa", wbound "spidermaker",
  lit "フィラメント"]

def HARDWARE_BLACKLIST : List (List RElem) := [
  wbound "halot", wbound "mage", wbound "combo", wbound "plate",
  wbound "toolkit", wbound "lcd", wbound "screen", wbound "fep", wbound "nfep", wbound "film",
  wbound "curing station", wbound "washing station",
  RElem.wb :: lit "wash" ++ [RElem.dotStar] ++ lit "cure" ++ [RElem.wb],
  RElem.wb :: lit "cure" ++ [RElem.dotStar] ++ lit "wash" ++ [RElem.wb],
  wbound "heater", wbound "retrofit", wbound "dryer", wbound "kobra", wbound "neptune",
  wbound "nozzle", wbound "hotend", wbound "extruder", wbound "platform", wbound "magnetic",
  wbound "airpure", wbound "tube", wbound "hub", wbound "kit", wbound "part", wbound "adhesive",
  wbound "sheet", wbound "glass", wbound "board", wbound "controller", wbound "cable",
  wbound "module", wbound "sensor", wbound "fan", wbound "motor", wbound "camera", wbound "led",
  wbound "cfs", wbound "spacepi", wbound "storage", wbound "box", wbound "system",
  wbound "screw", wbound "wiper", wbound "cutter", wbound "assembly", wbound "pcba",
  wbound "antenna",
  RElem.wb :: lit "power" ++ [RElem.wsStar] ++ lit "supply" ++ [RElem.wb],
  wbound "wire", wbound "tools", wbound "shaft",
  wbound "nut", lit "filter", lit "switch", lit "coupler", lit "holder",
  lit "ace" ++ [RElem.wsStar] ++ lit "pro", lit "belt",
  lit "touchscreen", lit "screen", lit "relay", lit "spring", lit "lock", wbound "hose",
  lit "reusable" ++ [RElem.wsStar] ++ lit "spool",
  lit "coating"]

def NON_PRODUCT_BLACKLIST : List (List RElem) := [
  lit "guide", lit "review", lit "recensione", lit "guarantee", lit "support",
  lit "shipping", lit "service",
  lit "years of", lit "black friday", lit "deal", lit "campfire",
  lit "202" ++ [RElem.dot], lit "bundle", lit "pack",
  lit "set", lit "gift", lit "protection", lit "deposit", lit "claim", lit "link",
  lit "coupon", lit "discount",
  lit "sale", lit "clearance", lit "refurbished", lit "renewed", lit "usado",
  lit "reacondicionado",
  lit "membership", lit "subscription", lit "prize", lit "reward", lit "seel",
  lit "insurance",
  lit "soleyin", lit "3d" ++ [RElem.wsStar] ++ lit "pen"]

def RESIN_BLACKLIST : List (List RElem) := [
  lit "resin", lit "wash", lit "cure", lit "dlp", lit "sla", lit "photon", lit "mono",
  lit "halot",
  lit "creality" ++ [RElem.wsStar] ++ lit "3d" ++ [RElem.wsStar] ++ lit "printer",
  lit "anycubic" ++ [RElem.wsStar] ++ lit "3d" ++ [RElem.wsStar] ++ lit "printer",
  lit "elegoo" ++ [RElem.wsStar] ++ lit "3d" ++ [RElem.wsStar] ++ lit "printer"]

/-! ## The product record

One structure models both the raw strategy dicts and the frontend-schema
dicts that the merge engine handles: a missing key and a JSON null are both
modelled as none, a missing tags key as the empty list.  The price field
carries the raw source price string; the float conversion the code performs
on it is representation-only and no claim depends on it. -/

structure Product where
  brand : String := ""
  name : String := ""
  type : Option String := none
  image : Option String := none
  color : Option String := none
  color_name : Option String := none
  price : Option String := none
  tags : List String := []
  description : Option String := none
  url : Option String := none
  fuente_datos : Option String := none
  profiles : Option String := none
  params : Option String := none
deriving DecidableEq, Repr

/-- src/scraper.py lines 86-136, validate_product: category-aware blacklist
validation.  The diagnostic print statements of the source are side effects
with no bearing on the returned boolean and are dropped. -/
def validate_product (product : Product) (category : String) : Bool :=
  let name_lower := pyLower product.name
  let tags := product.tags.map pyLower
  let all_text := name_lower ++ " " ++ pyJoin " " tags
  if category == "resin" then
    if FILAMENT_BLACKLIST.any (fun pat => research pat all_text) then false
    else if HARDWARE_BLACKLIST.any (fun pat => research pat all_text) then false
    else if NON_PRODUCT_BLACKLIST.any (fun pat => research pat all_text) then false
    else if research (wbound "abs") name_lower && !(containsStr name_lower "like") then false
    else true
  else if category == "filament" then
    if RESIN_BLACKLIST.any (fun pat => research pat name_lower) then false
    else if HARDWARE_BLACKLIST.any (fun pat => research pat name_lower) then false
    else if NON_PRODUCT_BLACKLIST.any (fun pat => research pat all_text) then false
    else true
  else true

/-! ## Classification heuristics (src/strategies/shopify.py lines 35-114) -/

/-- The ordered keyword chain of detect_product_type, applied to the already
lowercased combined text. -/
def detect_product_type_text (t : String) : String :=
  if containsStr t "pla+" || containsStr t "pla plus" then "PLA+"
  else if containsStr t "petg" then "PETG"
  else if containsStr t "abs" then "ABS"
  else if containsStr t "asa" then "ASA"
  else if containsStr t "tpu" || containsStr t "tpe" || containsStr t "flex" then "TPU"
  else if containsStr t "nylon" || containsStr t "pa12" || containsStr t "pa6" then "Nylon"
  else if containsStr t "silk" then "Silk PLA"
  else if containsStr t "matte" then "Matte PLA"
  else if containsStr t "wood" then "Wood"
  else if containsStr t "carbon" || containsStr t "cf" then "Carbon Fiber"
  else if containsStr t "pla" then "PLA"
  else if containsStr t "water wash" then "Water Washable"
  else if containsStr t "abs-like" || containsStr t "abs like" then "ABS-Like"
  else if containsStr t "tough" then "Tough"
  else if containsStr t "flexible" || containsStr t "elastic" then "Flexible"
  else if containsStr t "dental" then "Dental"
  else if containsStr t "castable" then "Castable"
  else if containsStr t "clear" || containsStr t "transparent" then "Transparent"
  else if containsStr t "resin" then "Standard"
  else "Standard"

/-- src/strategies/shopify.py lines 35-81, detect_product_type. -/
def detect_product_type (title : String) (product_type : String := "") : String :=
  detect_product_type_text (pyLower (title ++ " " ++ product_type))

/-- src/strategies/shopify.py lines 88-108: the ordered color keyword table
(Python dicts preserve insertion order, so iteration is first-match-wins in
this declared order). -/
def colorTable : List (String × String × String) := [
  ("black", "#000000", "Black"), ("white", "#ffffff", "White"),
  ("grey", "#808080", "Grey"), ("gray", "#808080", "Grey"),
  ("red", "#ef4444", "Red"), ("blue", "#3b82f6", "Blue"),
  ("green", "#22c55e", "Green"), ("yellow", "#eab308", "Yellow"),
  ("orange", "#f97316", "Orange"), ("purple", "#a855f7", "Purple"),
  ("pink", "#ec4899", "Pink"), ("clear", "#e5e7eb", "Clear"),
  ("transparent", "#e5e7eb", "Transparent"), ("silver", "#c0c0c0", "Silver"),
  ("gold", "#ffd700", "Gold"), ("beige", "#d4a574", "Beige"),
  ("navy", "#3f4756", "Navy"), ("teal", "#14b8a6", "Teal"),
  ("cyan", "#06b6d4", "Cyan")]

/-- src/strategies/shopify.py lines 84-114, detect_color. -/
def detect_color (title : String) (variant_title : String := "") : String × String :=
  let text := pyLower (title ++ " " ++ variant_title)
  match colorTable.find? (fun kv => containsStr text kv.1) with
  | some kv => (kv.2.1, kv.2.2)
  | none => ("#808080", "Grey")

/-! ## Enrichment (src/scraper.py lines 416-440)

enrich_product mutates the dict in three sequential steps; each step below
is one of those fills.  The WordPress rendered-title branch (name arriving
as a dict) is outside this model, where name is a string. -/

def enrich_fill_type (p : Product) : Product :=
  if truthy p.type then p
  else { p with type := some (detect_product_type p.name "") }

def enrich_fill_color (p : Product) : Product :=
  if truthy p.color then p
  else { p with color := some (detect_color p.name "").1,
                color_name := some (detect_color p.name "").2 }

def enrich_fill_tags (p : Product) : Product :=
  if p.tags.isEmpty then { p with tags := [p.type.getD "Standard"] } else p

/-- src/scraper.py lines 416-440, enrich_product.  The category argument is
accepted, as in the source, and not consulted. -/
def enrich_product (product : Product) (category : String) : Product :=
  enrich_fill_tags (enrich_fill_color (enrich_fill_type product))

/-! ## Shopify endpoint derivation (src/strategies/shopify.py lines 17-32) -/

/-- re.match of the anchored pattern for scheme and host: an http or https
scheme followed by the longest non-empty run of non-slash characters. -/
def urlSchemeHost (s : String) : Option String :=
  if ("https://" : String).data.isPrefixOf s.data then
    let host := (s.data.drop 8).takeWhile (fun c => c != '/')
    if host.isEmpty then none else some (String.mk (("https://" : String).data ++ host))
  else if ("http://" : String).data.isPrefixOf s.data then
    let host := (s.data.drop 7).takeWhile (fun c => c != '/')
    if host.isEmpty then none else some (String.mk (("http://" : String).data ++ host))
  else none

/-- src/strategies/shopify.py lines 17-32, get_shopify_json_url. -/
def get_shopify_json_url (base_url : String) : String :=
  let b := rstripSlash base_url
  if containsStr b "/collections/" then b ++ "/products.json?limit=250"
  else
    match urlSchemeHost b with
    | some dom => dom ++ "/products.json?limit=250"
    | none => b ++ "/products.json?limit=250"

/-! ## Shopify strategy record mapping (src/strategies/shopify.py lines 154-198)

One Shopify API product object, reduced to the fields the mapping loop
reads: each image object to its src value, each variant to its price
string.  The float parse of the price and the network fetch around the loop
are outside the model; the loop body itself is embedded one-to-one. -/

structure ShopifyProduct where
  title : String := ""
  product_type : String := ""
  images : List (Option String) := []
  variants : List (Option String) := []
  tags : List String := []
  body_html : Option String := none
  handle : Option String := none
deriving DecidableEq, Repr

/-- The body of the per-product loop of scrape_shopify.  A missing handle
renders as the Python string None inside the f-string. -/
def shopifyMapProduct (base_clean brand : String) (p : ShopifyProduct) : Product :=
  let image_url := match p.images with | [] => none | src :: _ => src
  let price := match p.variants with
    | [] => none
    | pr :: _ => match pr with
      | none => none
      | some s => if s == "" then none else some s
  let material_type := detect_product_type p.title p.product_type
  { brand := brand
    name := p.title
    type := some material_type
    image := image_url
    color := some (detect_color p.title "").1
    color_name := some (detect_color p.title "").2
    price := price
    tags := if p.tags.isEmpty then [material_type] else p.tags.take 5
    description := match p.body_html with
      | some b => if b != "" then some (strTake b 200) else none
      | none => none
    url := some (strBefore base_clean "/collections" ++ "/products/" ++ p.handle.getD "None")
    fuente_datos := some "shopify_api" }

/-- The record sequence a successful Shopify endpoint yields: one record per
API product, with no name filtering. -/
def shopifyResults (base_clean brand : String) (products : List ShopifyProduct) : List Product :=
  products.map (shopifyMapProduct base_clean brand)

/-! ## Generic-HTML strategy record mapping (src/strategies/html.py)

One matched card element, reduced to what the loop body reads: the text of
the resolved name element (none when no selector matched an element), the
coalesced image attribute, the price text and the link href. -/

structure HtmlCard where
  nameText : Option String := none
  imageSrc : Option String := none
  priceText : Option String := none
  linkHref : Option String := none
deriving DecidableEq, Repr

/-- Protocol-relative image URLs are rewritten to https. -/
def htmlMapImage : Option String → Option String
  | none => none
  | some u =>
    if u != "" && ("//" : String).data.isPrefixOf u.data then some ("https:" ++ u)
    else some u

/-- First maximal run of digit, dot or comma characters after the comma to
dot replacement; the float conversion on it is outside the model. -/
def firstNumRun (p : Char → Bool) : List Char → Option (List Char)
  | [] => none
  | x :: xs => if p x then some (x :: xs.takeWhile p) else firstNumRun p xs

def htmlMapPrice : Option String → Option String
  | none => none
  | some s =>
    (firstNumRun (fun c => c.isDigit || c == '.')
        (s.data.map (fun c => if c == ',' then '.' else c))).map String.mk

/-- Root-relative hrefs are resolved against the page scheme and host
(urljoin specialised to path-absolute hrefs); absolute http links pass
through; anything else yields no URL. -/
def htmlMapLink (pageUrl : String) : Option String → Option String
  | none => none
  | some h =>
    if ("/" : String).data.isPrefixOf h.data then
      match urlSchemeHost pageUrl with
      | some dom => some (dom ++ h)
      | none => some h
    else if ("http" : String).data.isPrefixOf h.data then some h
    else none

def htmlCardRecord (brand pageUrl : String) (card : HtmlCard) : Product :=
  { brand := brand
    name := card.nameText.getD ""
    image := htmlMapImage card.imageSrc
    price := htmlMapPrice card.priceText
    url := htmlMapLink pageUrl card.linkHref
    fuente_datos := some "html_scrape" }

/-- The card loop of scrape_html: a card whose resolved name is absent or
empty is skipped, every other card yields one record. -/
def htmlExtract (brand pageUrl : String) : List HtmlCard → List Product
  | [] => []
  | card :: rest =>
    if truthy card.nameText then
      htmlCardRecord brand pageUrl card :: htmlExtract brand pageUrl rest
    else htmlExtract brand pageUrl rest

/-! ## Merge/reconciliation engine (src/scraper.py lines 534-583)

The persisted file is modelled as an explicit Option (List Product): none
when the file is absent or unreadable (both the early missing-file return
and the exception handler return new_data unchanged), some catalog when the
JSON loads.  The category is derived from the file path exactly as in the
source. -/

def keyOf (p : Product) : String × String := (pyLower p.brand, pyLower p.name)

/-- The dict update applied to a matched existing entry. -/
def updateEntry (e item : Product) : Product :=
  { e with
    profiles := getOrD item.profiles e.profiles
    params := getOrD item.params e.params
    image := if truthy item.image then item.image else e.image
    description := if truthy item.description then item.description else e.description
    tags := if item.tags.isEmpty then e.tags else item.tags }

/-- One pass of the inner loop: update the first key-matching existing entry
in place, or append the new item at the end when no entry matches. -/
def mergeOne : List Product → Product → List Product
  | [], item => [item]
  | e :: rest, item =>
    if keyOf e = keyOf item then updateEntry e item :: rest
    else e :: mergeOne rest item

/-- The category implied by the target file path. -/
def categoryOf (filepath : String) : String :=
  if containsStr filepath "resin" then "resin" else "filament"

/-- src/scraper.py lines 534-583, merge_with_existing. -/
def merge_with_existing (new_data : List Product) (file : Option (List Product))
    (filepath : String) : List Product :=
  match file with
  | none => new_data
  | some existing =>
    let merged := new_data.foldl mergeOne existing
    merged.filter (fun p => validate_product p (categoryOf filepath))

/-! ## Concrete records used by the theorems below -/

def absFilamentP : Product := { name := "Standard ABS Filament" }

def absLikeResinP : Product := { name := "ABS-Like Resin" }

def genericPlaP : Product := { brand := "B", name := "Generic PLA" }

def mysteryP : Product := { name := "Mystery Material XYZ" }

def newImgR1 : Product := { brand := "B", name := "Generic PLA", image := some "a.png" }

def newImgR2 : Product := { brand := "B", name := "Generic PLA", image := some "b.png" }

def plaRedCard : HtmlCard := { nameText := some "PLA Red" }

def presetP : Product :=
  { name := "Anycubic ABS-Like Resin", type := some "Tough",
    color := some "#000000", color_name := some "Black" }

/-! ## Helper lemmas -/

theorem lpo_append_mono :
    ∀ (p e l : List Char), (p ++ e).isPrefixOf l = true → p.isPrefixOf l = true := by
  intro p
  induction p with
  | nil => intro e l _; cases l <;> simp [List.isPrefixOf]
  | cons a p ih =>
    intro e l h
    cases l with
    | nil => simp [List.isPrefixOf] at h
    | cons b l =>
      simp only [List.cons_append, List.isPrefixOf, Bool.and_eq_true] at h ⊢
      exact ⟨h.1, ih e l h.2⟩

theorem hasInfix_mono :
    ∀ (p e hay : List Char),
      listHasInfix (p ++ e) hay = true → listHasInfix p hay = true := by
  intro p e hay
  induction hay with
  | nil =>
    intro h
    simp only [listHasInfix] at h ⊢
    exact lpo_append_mono p e [] h
  | cons c rest ih =>
    intro h
    simp only [listHasInfix, Bool.or_eq_true] at h ⊢
    cases h with
    | inl h => exact Or.inl (lpo_append_mono p e (c :: rest) h)
    | inr h => exact Or.inr (ih h)

theorem contains_abs_of_abslike (t : String) :
    containsStr t "abs-like" = true → containsStr t "abs" = true := by
  intro h
  exact hasInfix_mono ("abs" : String).data ("-like" : String).data t.data h

theorem contains_abs_of_absSpaceLike (t : String) :
    containsStr t "abs like" = true → containsStr t "abs" = true := by
  intro h
  exact hasInfix_mono ("abs" : String).data (" like" : String).data t.data h

theorem keyOf_updateEntry (e item : Product) : keyOf (updateEntry e item) = keyOf e := rfl

theorem mergeOne_keys_sub (item : Product) :
    ∀ (acc : List Product) (k : String × String),
      k ∈ (mergeOne acc item).map keyOf → k ∈ acc.map keyOf ∨ k = keyOf item := by
  intro acc
  induction acc with
  | nil =>
    intro k hk
    simp only [mergeOne, List.map_cons, List.map_nil, List.mem_singleton] at hk
    exact Or.inr hk
  | cons e rest ih =>
    intro k hk
    simp only [mergeOne] at hk
    split at hk
    case isTrue he =>
      simp only [List.map_cons, List.mem_cons, keyOf_updateEntry] at hk
      rcases hk with h | h
      · exact Or.inl (by simp [h])
      · exact Or.inl (List.mem_cons.mpr (Or.inr h))
    case isFalse he =>
      simp only [List.map_cons, List.mem_cons] at hk
      rcases hk with h | h
      · exact Or.inl (by simp [h])
      · rcases ih k h with h2 | h2
        · exact Or.inl (List.mem_cons.mpr (Or.inr h2))
        · exact Or.inr h2

theorem mergeOne_keys_nodup (item : Product) :
    ∀ (acc : List Product),
      (acc.map keyOf).Nodup → ((mergeOne acc item).map keyOf).Nodup := by
  intro acc
  induction acc with
  | nil => intro _; simp [mergeOne]
  | cons e rest ih =>
    intro hnd
    simp only [List.map_cons, List.nodup_cons] at hnd
    simp only [mergeOne]
    split
    case isTrue he =>
      simp only [List.map_cons, List.nodup_cons, keyOf_updateEntry]
      exact ⟨hnd.1, hnd.2⟩
    case isFalse he =>
      simp only [List.map_cons, List.nodup_cons]
      refine ⟨?_, ih hnd.2⟩
      intro hmem
      rcases mergeOne_keys_sub item rest (keyOf e) hmem with h | h
      · exact hnd.1 h
      · exact he h

theorem foldl_mergeOne_nodup :
    ∀ (new acc : List Product),
      (acc.map keyOf).Nodup → ((new.foldl mergeOne acc).map keyOf).Nodup := by
  intro new
  induction new with
  | nil => intro acc h; simpa using h
  | cons i rest ih =>
    intro acc h
    simp only [List.foldl_cons]
    exact ih (mergeOne acc i) (mergeOne_keys_nodup i acc h)

theorem mergeOne_not_mem (item : Product) :
    ∀ (acc : List Product),
      keyOf item ∉ acc.map keyOf → mergeOne acc item = acc ++ [item] := by
  intro acc
  induction acc with
  | nil => intro _; rfl
  | cons e rest ih =>
    intro h
    simp only [List.map_cons, List.mem_cons, not_or] at h
    have hne : ¬ (keyOf e = keyOf item) := fun hh => h.1 hh.symm
    simp only [mergeOne, if_neg hne, List.cons_append]
    rw [ih h.2]

theorem foldl_mergeOne_append :
    ∀ (new acc : List Product),
      (new.map keyOf).Nodup → (∀ i ∈ new, keyOf i ∉ acc.map keyOf) →
      new.foldl mergeOne acc = acc ++ new := by
  intro new
  induction new with
  | nil => intro acc _ _; simp
  | cons i rest ih =>
    intro acc hnd hmem
    simp only [List.map_cons, List.nodup_cons] at hnd
    simp only [List.foldl_cons]
    rw [mergeOne_not_mem i acc (hmem i (by simp))]
    rw [ih (acc ++ [i]) hnd.2 ?_]
    · simp
    · intro j hj
      simp only [List.map_append, List.mem_append, List.map_cons, List.map_nil,
        List.mem_singleton, not_or]
      refine ⟨hmem j (by simp [hj]), ?_⟩
      intro hkey
      exact hnd.1 (hkey ▸ List.mem_map_of_mem keyOf hj)

theorem filter_self_idem {α : Type} (p : α → Bool) :
    ∀ l : List α, (l.filter p).filter p = l.filter p := by
  intro l
  induction l with
  | nil => rfl
  | cons a t ih =>
    by_cases h : p a = true <;> simp [List.filter_cons, h, ih]

theorem truthy_getD_ne (o : Option String) (h : truthy o = true) : o.getD "" ≠ "" := by
  cases o with
  | none => simp [truthy] at h
  | some s =>
    simp only [truthy, bne_iff_ne] at h
    simpa using h

theorem fill_type_keep (p : Product) (h : truthy p.type = true) :
    enrich_fill_type p = p := by
  unfold enrich_fill_type; rw [if_pos h]

theorem fill_color_keep (p : Product) (h : truthy p.color = true) :
    enrich_fill_color p = p := by
  unfold enrich_fill_color; rw [if_pos h]

theorem fill_type_frame (p : Product) :
    (enrich_fill_type p).brand = p.brand ∧ (enrich_fill_type p).name = p.name
    ∧ (enrich_fill_type p).image = p.image ∧ (enrich_fill_type p).color = p.color
    ∧ (enrich_fill_type p).color_name = p.color_name ∧ (enrich_fill_type p).price = p.price
    ∧ (enrich_fill_type p).tags = p.tags ∧ (enrich_fill_type p).description = p.description
    ∧ (enrich_fill_type p).url = p.url ∧ (enrich_fill_type p).fuente_datos = p.fuente_datos
    ∧ (enrich_fill_type p).profiles = p.profiles ∧ (enrich_fill_type p).params = p.params := by
  unfold enrich_fill_type
  split <;> exact ⟨rfl, rfl, rfl, rfl, rfl, rfl, rfl, rfl, rfl, rfl, rfl, rfl⟩

theorem fill_color_frame (p : Product) :
    (enrich_fill_color p).brand = p.brand ∧ (enrich_fill_color p).name = p.name
    ∧ (enrich_fill_color p).type = p.type ∧ (enrich_fill_color p).image = p.image
    ∧ (enrich_fill_color p).price = p.price ∧ (enrich_fill_color p).tags = p.tags
    ∧ (enrich_fill_color p).description = p.description ∧ (enrich_fill_color p).url = p.url
    ∧ (enrich_fill_color p).fuente_datos = p.fuente_datos
    ∧ (enrich_fill_color p).profiles = p.profiles
    ∧ (enrich_fill_color p).params = p.params := by
  unfold enrich_fill_color
  split <;> exact ⟨rfl, rfl, rfl, rfl, rfl, rfl, rfl, rfl, rfl, rfl, rfl⟩

theorem fill_tags_frame (p : Product) :
    (enrich_fill_tags p).brand = p.brand ∧ (enrich_fill_tags p).name = p.name
    ∧ (enrich_fill_tags p).type = p.type ∧ (enrich_fill_tags p).image = p.image
    ∧ (enrich_fill_tags p).color = p.color ∧ (enrich_fill_tags p).color_name = p.color_name
    ∧ (enrich_fill_tags p).price = p.price ∧ (enrich_fill_tags p).description = p.description
    ∧ (enrich_fill_tags p).url = p.url ∧ (enrich_fill_tags p).fuente_datos = p.fuente_datos
    ∧ (enrich_fill_tags p).profiles = p.profiles ∧ (enrich_fill_tags p).params = p.params := by
  unfold enrich_fill_tags
  split <;> exact ⟨rfl, rfl, rfl, rfl, rfl, rfl, rfl, rfl, rfl, rfl, rfl, rfl⟩

/-! ## Claim theorems -/

/-- C1: validation is category-asymmetric on the standalone abs token: the
record named Standard ABS Filament (no tags) is rejected for the resin
category and accepted for the filament category, while the record named
ABS-Like Resin (no tags) is accepted for resin and rejected for filament. -/
theorem validate_abs_category_asymmetry :
    validate_product absFilamentP "resin" = false
    ∧ validate_product absFilamentP "filament" = true
    ∧ validate_product absLikeResinP "resin" = true
    ∧ validate_product absLikeResinP "filament" = false := by decide

/-- C2 counterexample: the merge engine does not establish key uniqueness
for every existing catalog: an existing catalog that already contains two
valid entries with the same case-insensitive (brand, name) key is returned
with both entries still present. -/
theorem merge_duplicate_catalog_cex :
    ¬ (((merge_with_existing [] (some [genericPlaP, genericPlaP])
          "filaments_db.json").map keyOf).Nodup) := by decide

/-- C2 as amended: when the existing catalog is readable and itself has
pairwise-distinct case-insensitive (brand, name) keys, the merged catalog
has pairwise-distinct keys for every new-record list; and feeding two new
records with identical key and different present images against a readable
empty catalog yields exactly one entry for that key, carrying the later
record's image. -/
theorem merge_preserves_key_nodup :
    (∀ (new ex : List Product) (path : String),
        (ex.map keyOf).Nodup →
        ((merge_with_existing new (some ex) path).map keyOf).Nodup)
    ∧ merge_with_existing [newImgR1, newImgR2] (some []) "filaments_db.json"
        = [{ brand := "B", name := "Generic PLA", image := some "b.png" }] := by
  constructor
  · intro new ex path hnd
    exact List.Nodup.sublist
      ((List.filter_sublist (new.foldl mergeOne ex)).map keyOf)
      (foldl_mergeOne_nodup new ex hnd)
  · decide

/-- C2 witness: the uniqueness-preservation part applied at a concrete
input. -/
theorem merge_preserves_key_nodup_witness :
    ((merge_with_existing [genericPlaP] (some []) "filaments_db.json").map keyOf).Nodup :=
  merge_preserves_key_nodup.1 [genericPlaP] [] "filaments_db.json" (by decide)

/-- C3 counterexample: when the existing-catalog file is absent the merge
engine returns the new data unvalidated, so an entry that fails current
validation for the category implied by the target file can appear in the
output. -/
theorem merge_missing_file_invalid_kept_cex :
    absFilamentP ∈ merge_with_existing [absFilamentP] none "resins_db.json"
    ∧ validate_product absFilamentP (categoryOf "resins_db.json") = false := by decide

/-- C3 as amended: when the existing-catalog file is readable, every entry
of the merge output (old entries included) passes validation for the
category implied by the target file, and any record failing current
validation is absent from the output; when the file is absent or unreadable
the new data is returned unchanged, without this re-validation. -/
theorem merge_output_all_validated :
    (∀ (new ex : List Product) (path : String) (r : Product),
        r ∈ merge_with_existing new (some ex) path →
        validate_product r (categoryOf path) = true)
    ∧ (∀ (new ex : List Product) (path : String) (r : Product),
        validate_product r (categoryOf path) = false →
        r ∉ merge_with_existing new (some ex) path)
    ∧ (∀ (new : List Product) (path : String),
        merge_with_existing new none path = new) := by
  refine ⟨?_, ?_, ?_⟩
  · intro new ex path r hr
    have hr2 : r ∈ (new.foldl mergeOne ex).filter
        (fun q => validate_product q (categoryOf path)) := hr
    exact @List.of_mem_filter Product (fun q => validate_product q (categoryOf path)) r
      (new.foldl mergeOne ex) hr2
  · intro new ex path r hval hr
    have hr2 : r ∈ (new.foldl mergeOne ex).filter
        (fun q => validate_product q (categoryOf path)) := hr
    have hmem : validate_product r (categoryOf path) = true :=
      @List.of_mem_filter Product (fun q => validate_product q (categoryOf path)) r
        (new.foldl mergeOne ex) hr2
    rw [hval] at hmem
    exact Bool.false_ne_true hmem
  · intro new path
    rfl

/-- C3 witness: the all-validated part applied at a concrete input. -/
theorem merge_output_all_validated_witness :
    validate_product genericPlaP (categoryOf "filaments_db.json") = true :=
  merge_output_all_validated.1 [] [genericPlaP] "filaments_db.json" genericPlaP (by decide)

/-- C4: merging an empty new-record list against a readable existing
catalog returns exactly that catalog filtered by current validation, and
repeating the merge on the result changes nothing. -/
theorem merge_empty_newlist_idem :
    ∀ (ex : List Product) (path : String),
      merge_with_existing [] (some ex) path
          = ex.filter (fun p => validate_product p (categoryOf path))
      ∧ merge_with_existing [] (some (merge_with_existing [] (some ex) path)) path
          = merge_with_existing [] (some ex) path := by
  intro ex path
  refine ⟨rfl, ?_⟩
  exact filter_self_idem (fun p => validate_product p (categoryOf path)) ex

/-- C5 counterexample: the Shopify strategy emits a record with an empty
name: an API product whose title is empty is mapped to a record with an
empty name and the non-empty batch is returned as is. -/
theorem shopify_empty_name_cex :
    (shopifyResults "https://store.example.com" "Anycubic"
        [({} : ShopifyProduct)]).map Product.name = [""]
    ∧ shopifyResults "https://store.example.com" "Anycubic"
        [({} : ShopifyProduct)] ≠ [] := by decide

/-- C5 as amended: the generic-HTML strategy discards every card whose
resolved name is absent or empty, so each of its records has a non-empty
name; the Shopify strategy instead emits one record per API product with
name equal to the raw title, with no emptiness filter. -/
theorem strategy_name_filtering :
    (∀ (brand pageUrl : String) (cards : List HtmlCard) (r : Product),
        r ∈ htmlExtract brand pageUrl cards → r.name ≠ "")
    ∧ (∀ (base_clean brand : String) (ps : List ShopifyProduct),
        (shopifyResults base_clean brand ps).map Product.name
          = ps.map ShopifyProduct.title) := by
  constructor
  · intro brand pageUrl cards
    induction cards with
    | nil => intro r hr; simp [htmlExtract] at hr
    | cons card rest ih =>
      intro r hr
      simp only [htmlExtract] at hr
      by_cases h : truthy card.nameText = true
      · rw [if_pos h] at hr
        rcases List.mem_cons.mp hr with h1 | h1
        · subst h1
          exact truthy_getD_ne card.nameText h
        · exact ih r h1
      · rw [if_neg h] at hr
        exact ih r hr
  · intro base_clean brand ps
    induction ps with
    | nil => rfl
    | cons p rest ih =>
      simp only [shopifyResults, List.map_cons] at ih ⊢
      rw [ih]
      rfl

/-- C5 witness: the generic-HTML part applied at a concrete card. -/
theorem strategy_name_filtering_witness :
    (htmlCardRecord "B" "https://x.example" plaRedCard).name ≠ "" :=
  strategy_name_filtering.1 "B" "https://x.example" [plaRedCard]
    (htmlCardRecord "B" "https://x.example" plaRedCard) (by decide)

/-- C6 counterexample: a record with no keyword matches classified for the
filament catalog receives type Standard, not PLA. -/
theorem enrich_filament_default_cex :
    (enrich_product mysteryP "filament").type ≠ some "PLA"
    ∧ (enrich_product mysteryP "filament").type = some "Standard" := by decide

/-- C6 as amended: when classification fills a missing type and no keyword
matches, the default label is Standard for every category; the detector
does not consult the catalog domain, so the filament catalog also defaults
to Standard rather than PLA. -/
theorem enrich_default_standard :
    ∀ category : String, (enrich_product mysteryP category).type = some "Standard" := by
  intro c
  rfl

/-- C7: enrichment is additive only: a present non-empty type is returned
unchanged, a present non-empty color keeps both color and color name
unchanged, and every field other than type, color, color name and tags is
never modified. -/
theorem enrich_additive_frame :
    ∀ (p : Product) (category : String),
      (truthy p.type = true → (enrich_product p category).type = p.type)
      ∧ (truthy p.color = true →
          (enrich_product p category).color = p.color
          ∧ (enrich_product p category).color_name = p.color_name)
      ∧ (enrich_product p category).brand = p.brand
      ∧ (enrich_product p category).name = p.name
      ∧ (enrich_product p category).image = p.image
      ∧ (enrich_product p category).price = p.price
      ∧ (enrich_product p category).description = p.description
      ∧ (enrich_product p category).url = p.url
      ∧ (enrich_product p category).fuente_datos = p.fuente_datos
      ∧ (enrich_product p category).profiles = p.profiles
      ∧ (enrich_product p category).params = p.params := by
  intro p c
  unfold enrich_product
  obtain ⟨ab, an, ai, ac, acn, apc, atg, ad, au, af, apr, apa⟩ := fill_type_frame p
  obtain ⟨bb, bn, bt, bi, bp, btg, bd, bu, bf, bpr, bpa⟩ :=
    fill_color_frame (enrich_fill_type p)
  obtain ⟨cb, cn, ct, ci, cc, ccn, cp, cd, cu, cfd, cpr, cpa⟩ :=
    fill_tags_frame (enrich_fill_color (enrich_fill_type p))
  refine ⟨?_, ?_, ?_, ?_, ?_, ?_, ?_, ?_, ?_, ?_, ?_⟩
  · intro h
    have e1 : enrich_fill_type p = p := fill_type_keep p h
    rw [ct, bt, e1]
  · intro h
    have hac : truthy (enrich_fill_type p).color = true := by rw [ac]; exact h
    have e2 : enrich_fill_color (enrich_fill_type p) = enrich_fill_type p :=
      fill_color_keep _ hac
    constructor
    · rw [cc, e2, ac]
    · rw [ccn, e2, acn]
  · rw [cb, bb, ab]
  · rw [cn, bn, an]
  · rw [ci, bi, ai]
  · rw [cp, bp, apc]
  · rw [cd, bd, ad]
  · rw [cu, bu, au]
  · rw [cfd, bf, af]
  · rw [cpr, bpr, apr]
  · rw [cpa, bpa, apa]

/-- C7 witness: applied at a record with type and color already present. -/
theorem enrich_additive_frame_witness :
    (enrich_product presetP "resin").type = presetP.type
    ∧ (enrich_product presetP "resin").color = presetP.color :=
  ⟨(enrich_additive_frame presetP "resin").1 (by decide),
   ((enrich_additive_frame presetP "resin").2.1 (by decide)).1⟩

/-- C8 counterexample: with the existing-catalog file absent, the merge
returns the new data unchanged, which differs from running the full merge
algorithm against a readable empty catalog: the latter drops a new record
that fails validation, the former keeps it. -/
theorem merge_missing_file_cex :
    merge_with_existing [absFilamentP] none "resins_db.json" = [absFilamentP]
    ∧ merge_with_existing [absFilamentP] (some []) "resins_db.json" = []
    ∧ ([absFilamentP] : List Product) ≠ [] := by decide

/-- C8 as amended: when the existing-catalog file is absent or unreadable
the merge engine returns the new data unchanged (a pure append, with no
deduplication and no re-validation) and the run is not aborted; this
coincides with running the full algorithm against a readable empty catalog
exactly when the new data already has pairwise-distinct keys and passes
current validation. -/
theorem merge_missing_file_append :
    (∀ (new : List Product) (path : String), merge_with_existing new none path = new)
    ∧ (∀ (new : List Product) (path : String),
        (new.map keyOf).Nodup →
        (∀ r ∈ new, validate_product r (categoryOf path) = true) →
        merge_with_existing new (some []) path = new) := by
  constructor
  · intro new path
    rfl
  · intro new path hnd hval
    show (new.foldl mergeOne []).filter
        (fun p => validate_product p (categoryOf path)) = new
    rw [foldl_mergeOne_append new [] hnd (by intro i _; simp)]
    simp only [List.nil_append]
    exact List.filter_eq_self.mpr hval

/-- C8 witness: both parts applied at concrete inputs. -/
theorem merge_missing_file_append_witness :
    merge_with_existing [genericPlaP] (some []) "filaments_db.json" = [genericPlaP] :=
  merge_missing_file_append.2 [genericPlaP] "filaments_db.json" (by decide) (by decide)

/-- C9: Shopify endpoint derivation: a collection URL keeps its collection
path, a bare storefront URL gets the bare-domain endpoint, and a trailing
slash on the input is stripped before derivation. -/
theorem shopify_json_url_derivation :
    get_shopify_json_url "https://store.example.com/collections/resin"
        = "https://store.example.com/collections/resin/products.json?limit=250"
    ∧ get_shopify_json_url "https://store.example.com"
        = "https://store.example.com/products.json?limit=250"
    ∧ get_shopify_json_url "https://store.example.com/collections/resin/"
        = get_shopify_json_url "https://store.example.com/collections/resin"
    ∧ get_shopify_json_url "https://store.example.com/"
        = get_shopify_json_url "https://store.example.com" := by decide

/-- C10 counterexample: it is not true that every input whose lowercase
text contains abs is assigned type ABS: the petg check precedes the abs
check, so the title PETG ABS is assigned PETG. -/
theorem detect_abs_priority_cex :
    containsStr (pyLower ("PETG ABS" ++ " " ++ "")) "abs" = true
    ∧ detect_product_type "PETG ABS" "" = "PETG"
    ∧ ("PETG" : String) ≠ "ABS" := by decide

/-- C10 as amended: the type detector never returns ABS-Like: every text
containing abs-like (or abs like) also contains abs, and the abs check is
evaluated earlier in the ordered keyword chain, so the ABS-Like branch is
unreachable (an input containing abs is assigned ABS only when no earlier
keyword, such as petg, matched first). -/
theorem detect_never_abslike :
    ∀ (title product_type : String),
      detect_product_type title product_type ≠ "ABS-Like" := by
  intro title ptype
  unfold detect_product_type
  generalize pyLower (title ++ " " ++ ptype) = t
  unfold detect_product_type_text
  by_cases h1 : (containsStr t "pla+" || containsStr t "pla plus") = true
  · rw [if_pos h1]; decide
  rw [if_neg h1]
  by_cases h2 : containsStr t "petg" = true
  · rw [if_pos h2]; decide
  rw [if_neg h2]
  by_cases h3 : containsStr t "abs" = true
  · rw [if_pos h3]; decide
  rw [if_neg h3]
  by_cases h4 : containsStr t "asa" = true
  · rw [if_pos h4]; decide
  rw [if_neg h4]
  by_cases h5 : (containsStr t "tpu" || containsStr t "tpe" || containsStr t "flex") = true
  · rw [if_pos h5]; decide
  rw [if_neg h5]
  by_cases h6 : (containsStr t "nylon" || containsStr t "pa12" || containsStr t "pa6") = true
  · rw [if_pos h6]; decide
  rw [if_neg h6]
  by_cases h7 : containsStr t "silk" = true
  · rw [if_pos h7]; decide
  rw [if_neg h7]
  by_cases h8 : containsStr t "matte" = true
  · rw [if_pos h8]; decide
  rw [if_neg h8]
  by_cases h9 : containsStr t "wood" = true
  · rw [if_pos h9]; decide
  rw [if_neg h9]
  by_cases h10 : (containsStr t "carbon" || containsStr t "cf") = true
  · rw [if_pos h10]; decide
  rw [if_neg h10]
  by_cases h11 : containsStr t "pla" = true
  · rw [if_pos h11]; decide
  rw [if_neg h11]
  by_cases h12 : containsStr t "water wash" = true
  · rw [if_pos h12]; decide
  rw [if_neg h12]
  by_cases h13 : (containsStr t "abs-like" || containsStr t "abs like") = true
  · exfalso
    rw [Bool.or_eq_true] at h13
    rcases h13 with h | h
    · exact absurd (contains_abs_of_abslike t h) h3
    · exact absurd (contains_abs_of_absSpaceLike t h) h3
  rw [if_neg h13]
  by_cases h14 : containsStr t "tough" = true
  · rw [if_pos h14]; decide
  rw [if_neg h14]
  by_cases h15 : (containsStr t "flexible" || containsStr t "elastic") = true
  · rw [if_pos h15]; decide
  rw [if_neg h15]
  by_cases h16 : containsStr t "dental" = true
  · rw [if_pos h16]; decide
  rw [if_neg h16]
  by_cases h17 : containsStr t "castable" = true
  · rw [if_pos h17]; decide
  rw [if_neg h17]
  by_cases h18 : (containsStr t "clear" || containsStr t "transparent") = true
  · rw [if_pos h18]; decide
  rw [if_neg h18]
  by_cases h19 : containsStr t "resin" = true
  · rw [if_pos h19]; decide
  rw [if_neg h19]
  decide

end PV
